import Mathlib

/-!
Verification development for the netplan YAML serializer (`src/netplan.c`).

The C source renders one `NetplanNetDefinition` into a netplan YAML file
through a streaming event emitter (libyaml).  We embed the serializer
shallowly: the document writer becomes an explicit event trace plus a
write oracle saying which write attempts succeed, and each C function
becomes a Lean function threading that state and returning the same
success flag the C function returns (`gboolean`), or no flag where the C
function returns `void`.
-/

/-- Events of the streaming document writer (libyaml emitter, external
collaborator).  `outStart`/`outStop` stand for the stream/document
start and finalization performed by the `YAML_OUT_START`/`YAML_OUT_STOP`
macros. -/
inductive YamlEvent where
  | outStart
  | outStop
  | mappingOpen
  | mappingClose
  | scalarPlain (s : String)
  | scalarQuoted (s : String)
deriving DecidableEq, Repr

/-- State of the document writer: how many write attempts were made so
far (`count`), the events successfully written (`out`), and the
diagnostics issued via `g_warning` (`warnings`). -/
structure EmitState where
  count : Nat := 0
  out : List YamlEvent := []
  warnings : List String := []
deriving DecidableEq, Repr

/-- A write oracle: decides whether the n-th write attempt succeeds.
This models the fact that every individual writer operation may fail
(I/O error, encoding error). -/
def YamlWriter : Type := Nat → Bool

/-- The writer that never fails (the normal successful render). -/
def wOK : YamlWriter := fun _ => true

/-- A writer that fails exactly on the k-th write attempt. -/
def wFailAt (k : Nat) : YamlWriter := fun n => n != k

/-- One write attempt: on success the event is appended to the output,
on failure nothing is written; either way the attempt is counted. -/
def emit1 (w : YamlWriter) (st : EmitState) (e : YamlEvent) : EmitState × Bool :=
  if w st.count then ({ st with count := st.count + 1, out := st.out ++ [e] }, true)
  else ({ st with count := st.count + 1 }, false)

/-- A straight-line sequence of `YAML_*` macro writes: each macro jumps
to the enclosing function's `error` label on failure, so the sequence
stops at the first failed write. -/
def emitSeq (w : YamlWriter) (st : EmitState) : List YamlEvent → EmitState × Bool
  | [] => (st, true)
  | e :: es =>
    match emit1 w st e with
    | (st1, true) => emitSeq w st1 es
    | (st1, false) => (st1, false)

/-- Sequencing with the C `goto error` discipline: run the continuation
only if the previous step succeeded. -/
def andThen (r : EmitState × Bool) (f : EmitState → EmitState × Bool) : EmitState × Bool :=
  match r with
  | (st, true) => f st
  | (st, false) => (st, false)

/-- Modelled from the spec: the `YAML_STRING` macro (defined outside
`src/`) writes the key as a plain scalar and the value as a quoted
scalar, and writes nothing when the value is absent (NULL) — "each
present field, independently". -/
def yamlString (w : YamlWriter) (st : EmitState) (key : String) (value : Option String) :
    EmitState × Bool :=
  match value with
  | some v => emitSeq w st [.scalarPlain key, .scalarQuoted v]
  | none => (st, true)

/-- Device types of a definition (closed set, from the data model). -/
inductive NetplanDefType where
  | ethernet | wifi | modem | bridge | bond | vlan | tunnel | other
deriving DecidableEq, Repr

/-- Modelled from the spec: the fixed lookup table
`netplan_def_type_to_str` (declared outside `src/`) mapping the
device-type enum to the YAML device-type keyword. The claims only use
the table abstractly, never a particular string. -/
def netplan_def_type_to_str : NetplanDefType → String
  | .ethernet => "ethernets"
  | .wifi => "wifis"
  | .modem => "modems"
  | .bridge => "bridges"
  | .bond => "bonds"
  | .vlan => "vlans"
  | .tunnel => "tunnels"
  | .other => "others"

/-- Supported network-management backends (closed set). -/
inductive NetplanBackend where
  | networkd | NetworkManager
deriving DecidableEq, Repr

/-- Modelled from the spec: the fixed lookup table
`netplan_backend_to_name` (declared outside `src/`) mapping the backend
enum to the renderer name written after `renderer:`. -/
def netplan_backend_to_name : NetplanBackend → String
  | .networkd => "networkd"
  | .NetworkManager => "NetworkManager"

/-- Wireless modes; `other` is the unsupported/unknown sentinel
(`NETPLAN_WIFI_MODE_OTHER`). -/
inductive NetplanWifiMode where
  | infrastructure | adhoc | ap | other
deriving DecidableEq, Repr

/-- Modelled from the spec: the canonical wifi-mode string table
`netplan_wifi_mode_to_str` (declared outside `src/`).  The serializer
never reads the entry for the `other` sentinel (it is guarded), so that
entry is modelled as the empty string. -/
def netplan_wifi_mode_to_str : NetplanWifiMode → String
  | .infrastructure => "infrastructure"
  | .adhoc => "adhoc"
  | .ap => "ap"
  | .other => ""

/-- Match selector of a definition: the original hardware name, NULL
when unset (`def->match.original_name`). -/
structure NetplanMatch where
  original_name : Option String
deriving DecidableEq, Repr

/-- NetworkManager-specific backend settings (`s.nm`): optional UUID,
optional display name, and the open-ended passthrough mapping.  The C
passthrough is a `GData` key/value list whose pointer is NULL exactly
when the mapping is empty; we model it as an association list in an
arbitrary iteration order. -/
structure NetplanNMSettings where
  uuid : Option String
  name : Option String
  passthrough : List (String × String)
deriving DecidableEq, Repr

/-- Backend settings record (`NetplanBackendSettings`). -/
structure NetplanBackendSettings where
  nm : NetplanNMSettings
deriving DecidableEq, Repr

/-- Modem parameters (`def->modem_params`): each field present or
absent independently. -/
structure NetplanModemParams where
  auto_config : Bool
  apn : Option String
  device_id : Option String
  network_id : Option String
  pin : Option String
  sim_id : Option String
  sim_operator_id : Option String
deriving DecidableEq, Repr

/-- One wifi access point (`NetplanWifiAccessPoint`). -/
structure NetplanWifiAccessPoint where
  ssid : String
  hidden : Bool
  mode : NetplanWifiMode
  backend_settings : NetplanBackendSettings
deriving DecidableEq, Repr

/-- The abstract device definition (`NetplanNetDefinition`), read-only
to the serializer.  `access_points` models the SSID-keyed hash table in
an arbitrary iteration order; `match_` is the C field `match` (a Lean
keyword). -/
structure NetplanNetDefinition where
  id : String
  type : NetplanDefType
  backend : NetplanBackend
  has_match : Bool
  match_ : NetplanMatch
  wake_on_lan : Bool
  modem_params : NetplanModemParams
  access_points : List NetplanWifiAccessPoint
  backend_settings : NetplanBackendSettings
deriving DecidableEq, Repr

/-- Modelled from the spec: GLib's `g_build_path` (external path
utility) joins its elements with the separator and ignores empty
elements (GLib docs: "Empty elements are ignored", and the result has a
leading separator only if the first non-empty element has one).
Boundary separator-trimming for elements that themselves end or start
with a separator is not exercised by this code's elements and is not
modelled. -/
def g_build_path (elems : List String) : String :=
  match elems.filter (fun e => e ≠ "") with
  | [] => ""
  | x :: xs => xs.foldl (fun acc e => acc ++ "/" ++ e) x

/-- `write_match` (netplan.c:24-33): emits the `match` mapping with the
original hardware name. -/
def write_match (w : YamlWriter) (st : EmitState) (d : NetplanNetDefinition) :
    EmitState × Bool :=
  andThen (emitSeq w st [.scalarPlain "match", .mappingOpen]) fun st1 =>
  andThen (yamlString w st1 "name" d.match_.original_name) fun st2 =>
  emitSeq w st2 [.mappingClose]

/-- `_passthrough_handler` (netplan.c:40-48): the per-pair callback of
`g_datalist_foreach`.  It writes the key as a plain scalar and the
value as a quoted scalar; on a failed write it returns early (the
`error:` label) — the callback returns `void`, so no failure is
signalled to the caller. -/
def _passthrough_handler (w : YamlWriter) (key value : String) (st : EmitState) : EmitState :=
  match emit1 w st (.scalarPlain key) with
  | (st1, false) => st1
  | (st1, true) => (emit1 w st1 (.scalarQuoted value)).1

/-- GLib's `g_datalist_foreach` specialized to `_passthrough_handler`:
calls the handler once per key/value pair, in iteration order, with no
mechanism for the handler to stop the iteration. -/
def g_datalist_foreach (w : YamlWriter) (pairs : List (String × String)) (st : EmitState) :
    EmitState :=
  pairs.foldl (fun acc kv => _passthrough_handler w kv.1 kv.2 acc) st

/-- `write_backend_settings` (netplan.c:50-76): emits the
`networkmanager` mapping when any of uuid/name/passthrough is present,
with uuid (plain), name (quoted) and the nested passthrough mapping in
that order. -/
def write_backend_settings (w : YamlWriter) (st : EmitState) (s : NetplanBackendSettings) :
    EmitState × Bool :=
  if s.nm.uuid.isSome || s.nm.name.isSome || !s.nm.passthrough.isEmpty then
    andThen (emitSeq w st [.scalarPlain "networkmanager", .mappingOpen]) fun st1 =>
    andThen (match s.nm.uuid with
      | some u => emitSeq w st1 [.scalarPlain "uuid", .scalarPlain u]
      | none => (st1, true)) fun st2 =>
    andThen (match s.nm.name with
      | some n => emitSeq w st2 [.scalarPlain "name", .scalarQuoted n]
      | none => (st2, true)) fun st3 =>
    andThen (if s.nm.passthrough.isEmpty then (st3, true) else
      andThen (emitSeq w st3 [.scalarPlain "passthrough", .mappingOpen]) fun st4 =>
      emitSeq w (g_datalist_foreach w s.nm.passthrough st4) [.mappingClose]) fun st5 =>
    emitSeq w st5 [.mappingClose]
  else (st, true)

/-- Warning message issued by `write_access_points` for an unsupported
wireless mode (netplan.c:100). -/
def ap_warning (id ssid : String) : String :=
  "netplan: serialize: " ++ id ++ " (SSID " ++ ssid ++
    "), unsupported AP mode, falling back to infrastructure"

/-- Body of the access-point loop in `write_access_points`
(netplan.c:87-106) for one access point: SSID (quoted), nested mapping
with optional `hidden`, the `mode` (falling back to `infrastructure`
with a `g_warning` diagnostic when the mode is the unsupported
sentinel), and the access point's own backend settings. -/
def write_ap_one (w : YamlWriter) (d : NetplanNetDefinition) (st : EmitState)
    (ap : NetplanWifiAccessPoint) : EmitState × Bool :=
  andThen (emitSeq w st [.scalarQuoted ap.ssid, .mappingOpen]) fun st1 =>
  andThen (if ap.hidden then emitSeq w st1 [.scalarPlain "hidden", .scalarPlain "true"]
    else (st1, true)) fun st2 =>
  andThen (emitSeq w st2 [.scalarPlain "mode"]) fun st3 =>
  andThen (if ap.mode != NetplanWifiMode.other then
      emitSeq w st3 [.scalarPlain (netplan_wifi_mode_to_str ap.mode)]
    else
      emitSeq w { st3 with warnings := st3.warnings ++ [ap_warning d.id ap.ssid] }
        [.scalarPlain "infrastructure"]) fun st4 =>
  andThen (write_backend_settings w st4 ap.backend_settings) fun st5 =>
  emitSeq w st5 [.mappingClose]

/-- The `while (g_hash_table_iter_next ...)` loop of
`write_access_points`: any failed write inside the body jumps to the
function's `error` label, so the loop is fail-stop. -/
def write_access_points_loop (w : YamlWriter) (d : NetplanNetDefinition) (st : EmitState) :
    List NetplanWifiAccessPoint → EmitState × Bool
  | [] => (st, true)
  | ap :: rest =>
    match write_ap_one w d st ap with
    | (st1, true) => write_access_points_loop w d st1 rest
    | (st1, false) => (st1, false)

/-- `write_access_points` (netplan.c:78-110). -/
def write_access_points (w : YamlWriter) (st : EmitState) (d : NetplanNetDefinition) :
    EmitState × Bool :=
  andThen (emitSeq w st [.scalarPlain "access-points", .mappingOpen]) fun st1 =>
  andThen (write_access_points_loop w d st1 d.access_points) fun st2 =>
  emitSeq w st2 [.mappingClose]

/-- The emission body of `write_netplan_conf` (netplan.c:139-182), from
`YAML_OUT_START` to `YAML_OUT_STOP`.  Note that the source ignores the
return value of `write_match` (line 155), so a failure inside it does
not stop the render; all other steps jump to `error` on failure. -/
def render_body (w : YamlWriter) (d : NetplanNetDefinition) : EmitState × Bool :=
  andThen (emitSeq w {} [.outStart]) fun st0 =>
  andThen (emitSeq w st0 [.scalarPlain "network", .mappingOpen,
    .scalarPlain "version", .scalarPlain "2",
    .scalarPlain (netplan_def_type_to_str d.type), .mappingOpen,
    .scalarPlain d.id, .mappingOpen,
    .scalarPlain "renderer", .scalarPlain (netplan_backend_to_name d.backend)]) fun st1 =>
  andThen (if d.type = NetplanDefType.other then (st1, true) else
    -- the write_match return value is discarded in the source
    (fun st2 =>
      andThen (if d.wake_on_lan then
          emitSeq w st2 [.scalarPlain "wakeonlan", .scalarPlain "true"] else (st2, true)) fun st3 =>
      andThen (if d.modem_params.auto_config then
          emitSeq w st3 [.scalarPlain "auto-config", .scalarPlain "true"] else (st3, true)) fun st4 =>
      andThen (yamlString w st4 "apn" d.modem_params.apn) fun st5 =>
      andThen (yamlString w st5 "device-id" d.modem_params.device_id) fun st6 =>
      andThen (yamlString w st6 "network-id" d.modem_params.network_id) fun st7 =>
      andThen (yamlString w st7 "pin" d.modem_params.pin) fun st8 =>
      andThen (yamlString w st8 "sim-id" d.modem_params.sim_id) fun st9 =>
      andThen (yamlString w st9 "sim-operator-id" d.modem_params.sim_operator_id) fun st10 =>
      if d.type = NetplanDefType.wifi then write_access_points w st10 d else (st10, true))
    (if d.has_match then (write_match w st1 d).1 else st1)) fun stA =>
  -- only_passthrough:
  andThen (write_backend_settings w stA d.backend_settings) fun stB =>
  andThen (emitSeq w stB [.mappingClose, .mappingClose, .mappingClose]) fun stC =>
  emitSeq w stC [.outStop]

/-- Caller-visible trace of one `write_netplan_conf` call.  The C
function returns `void`: the record deliberately has no
success/failure field.  `openOk` records the outcome of `fopen` (which
the source never inspects), `fcloseCalled` whether `fclose` ran, and
`emitter_force_deleted` whether the `error:` path's explicit
`yaml_emitter_delete` ran. -/
structure RenderResult where
  filename : String
  path : String
  openOk : Bool
  st : EmitState
  fcloseCalled : Bool
  emitter_force_deleted : Bool
deriving DecidableEq, Repr

/-- `write_netplan_conf` (netplan.c:118-191): computes filename and
path, opens the output (the `openOk` argument models whether `fopen`
succeeded; the source does not check it), runs the emission body, and
closes the file on both the normal and the `error:` exit. -/
def write_netplan_conf (w : YamlWriter) (openOk : Bool) (d : NetplanNetDefinition)
    (rootdir : Option String) : RenderResult :=
  let filename := match d.backend_settings.nm.uuid with
    | some u => "90-NM-" ++ u ++ ".yaml"
    | none => "10-netplan-" ++ d.id ++ ".yaml"
  let path := g_build_path [rootdir.getD "", "etc", "netplan", filename]
  match render_body w d with
  | (stF, true) =>
    { filename := filename, path := path, openOk := openOk, st := stF,
      fcloseCalled := true, emitter_force_deleted := false }
  | (stF, false) =>
    { filename := filename, path := path, openOk := openOk, st := stF,
      fcloseCalled := true, emitter_force_deleted := true }

/-! ## Spec-side descriptions of the emitted documents

These definitions follow the spec's words and are compared with the
output of the embedded source functions. -/

/-- Passthrough block content according to the spec (§4.4): every
key/value pair exactly once, key plain, value quoted, in iteration
order. -/
def specPassthroughEvents (pairs : List (String × String)) : List YamlEvent :=
  (pairs.map (fun kv => [YamlEvent.scalarPlain kv.1, YamlEvent.scalarQuoted kv.2])).flatten

/-- An optional string field according to the spec: key plain, value
quoted, nothing when absent. -/
def specOptString (key : String) (v : Option String) : List YamlEvent :=
  match v with
  | some x => [.scalarPlain key, .scalarQuoted x]
  | none => []

/-- Backend-Settings Emitter output according to the spec (§4.3):
nothing if uuid, name and passthrough are all absent/empty; otherwise
one `networkmanager` mapping holding uuid (plain scalar), name (quoted
scalar) and the nested non-empty passthrough mapping, in that fixed
order. -/
def specBackendSettingsEvents (s : NetplanBackendSettings) : List YamlEvent :=
  if s.nm.uuid = none ∧ s.nm.name = none ∧ s.nm.passthrough = [] then []
  else
    [.scalarPlain "networkmanager", .mappingOpen]
    ++ (match s.nm.uuid with
        | some u => [.scalarPlain "uuid", .scalarPlain u]
        | none => [])
    ++ specOptString "name" s.nm.name
    ++ (if s.nm.passthrough = [] then [] else
        [.scalarPlain "passthrough", .mappingOpen]
        ++ specPassthroughEvents s.nm.passthrough ++ [.mappingClose])
    ++ [.mappingClose]

/-- Top-level document skeleton according to the spec (§4.1). -/
def specSkeletonEvents (d : NetplanNetDefinition) : List YamlEvent :=
  [.outStart, .scalarPlain "network", .mappingOpen,
   .scalarPlain "version", .scalarPlain "2",
   .scalarPlain (netplan_def_type_to_str d.type), .mappingOpen,
   .scalarPlain d.id, .mappingOpen,
   .scalarPlain "renderer", .scalarPlain (netplan_backend_to_name d.backend)]

/-- Match mapping according to the spec (§4.2), present only when the
definition declares a match. -/
def specMatchEvents (d : NetplanNetDefinition) : List YamlEvent :=
  if d.has_match then
    [.scalarPlain "match", .mappingOpen]
    ++ specOptString "name" d.match_.original_name ++ [.mappingClose]
  else []

/-- Wake-on-lan flag, only when true. -/
def specWolEvents (d : NetplanNetDefinition) : List YamlEvent :=
  if d.wake_on_lan then [.scalarPlain "wakeonlan", .scalarPlain "true"] else []

/-- Modem parameters, each present field independently, in the fixed
source order. -/
def specModemEvents (m : NetplanModemParams) : List YamlEvent :=
  (if m.auto_config then [.scalarPlain "auto-config", .scalarPlain "true"] else [])
  ++ specOptString "apn" m.apn
  ++ specOptString "device-id" m.device_id
  ++ specOptString "network-id" m.network_id
  ++ specOptString "pin" m.pin
  ++ specOptString "sim-id" m.sim_id
  ++ specOptString "sim-operator-id" m.sim_operator_id

/-- One access point according to the spec (§4.5): SSID quoted, nested
mapping with `hidden` only when set, `mode` always (falling back to
`infrastructure` for the unsupported sentinel), and the access point's
backend settings. -/
def specApEvents (ap : NetplanWifiAccessPoint) : List YamlEvent :=
  [.scalarQuoted ap.ssid, .mappingOpen]
  ++ (if ap.hidden then [.scalarPlain "hidden", .scalarPlain "true"] else [])
  ++ [.scalarPlain "mode",
      .scalarPlain (if ap.mode = NetplanWifiMode.other then "infrastructure"
        else netplan_wifi_mode_to_str ap.mode)]
  ++ specBackendSettingsEvents ap.backend_settings
  ++ [.mappingClose]

/-- Diagnostics of one access point: exactly one warning when its mode
is the unsupported sentinel, none otherwise. -/
def specApWarnings (id : String) (ap : NetplanWifiAccessPoint) : List String :=
  if ap.mode = NetplanWifiMode.other then [ap_warning id ap.ssid] else []

/-- The `access-points` mapping for all access points of a definition. -/
def specAccessPointsEvents (d : NetplanNetDefinition) : List YamlEvent :=
  [.scalarPlain "access-points", .mappingOpen]
  ++ (d.access_points.map specApEvents).flatten ++ [.mappingClose]

/-- All diagnostics of the access-point emitter for a definition. -/
def specAccessPointsWarnings (d : NetplanNetDefinition) : List String :=
  (d.access_points.map (specApWarnings d.id)).flatten

/-- The access-points block as placed in the document: only for wifi
definitions. -/
def specAccessPointsIfWifi (d : NetplanNetDefinition) : List YamlEvent :=
  if d.type = NetplanDefType.wifi then specAccessPointsEvents d else []

/-- The whole document of a successful render, according to the spec
(§4.1): skeleton, then (unless the device type is `other`) match →
wake-on-lan → modem parameters → access points (wifi only), then the
backend settings, three mapping closes and the stream finalization. -/
def specDocEvents (d : NetplanNetDefinition) : List YamlEvent :=
  specSkeletonEvents d
  ++ (if d.type = NetplanDefType.other then [] else
      specMatchEvents d ++ specWolEvents d ++ specModemEvents d.modem_params
      ++ specAccessPointsIfWifi d)
  ++ specBackendSettingsEvents d.backend_settings
  ++ [.mappingClose, .mappingClose, .mappingClose, .outStop]

/-- All diagnostics of a successful render. -/
def specDocWarnings (d : NetplanNetDefinition) : List String :=
  if d.type = NetplanDefType.other then []
  else if d.type = NetplanDefType.wifi then specAccessPointsWarnings d
  else []

/-! ## Runs of the emitter under the never-failing writer -/

/-- Normal form of an emitter state after successfully writing `es` and
issuing warnings `ws`. -/
def okRun (st : EmitState) (es : List YamlEvent) (ws : List String) : EmitState :=
  { count := st.count + es.length, out := st.out ++ es, warnings := st.warnings ++ ws }

theorem okRun_nil (st : EmitState) : okRun st [] [] = st := by
  simp [okRun]

theorem okRun_okRun (st : EmitState) (es1 es2 : List YamlEvent) (ws1 ws2 : List String) :
    okRun (okRun st es1 ws1) es2 ws2 = okRun st (es1 ++ es2) (ws1 ++ ws2) := by
  simp [okRun, Nat.add_assoc]

theorem okRun_warnings (st : EmitState) (ws : List String) (es : List YamlEvent)
    (ws2 : List String) :
    okRun { st with warnings := st.warnings ++ ws } es ws2 = okRun st es (ws ++ ws2) := by
  simp [okRun]

theorem andThen_ok (st : EmitState) (f : EmitState → EmitState × Bool) :
    andThen (st, true) f = f st := rfl

theorem emit1_wOK (st : EmitState) (e : YamlEvent) :
    emit1 wOK st e = (okRun st [e] [], true) := by
  simp [emit1, wOK, okRun]

theorem emitSeq_wOK (es : List YamlEvent) (st : EmitState) :
    emitSeq wOK st es = (okRun st es [], true) := by
  induction es generalizing st with
  | nil => simp [emitSeq, okRun_nil]
  | cons e es ih =>
    simp [emitSeq, emit1_wOK, ih, okRun_okRun]

theorem yamlString_wOK (st : EmitState) (key : String) (v : Option String) :
    yamlString wOK st key v = (okRun st (specOptString key v) [], true) := by
  cases v <;> simp [yamlString, specOptString, emitSeq_wOK, okRun_nil]

theorem write_match_wOK (st : EmitState) (d : NetplanNetDefinition) :
    write_match wOK st d =
      (okRun st ([.scalarPlain "match", .mappingOpen]
        ++ specOptString "name" d.match_.original_name ++ [.mappingClose]) [], true) := by
  simp [write_match, emitSeq_wOK, yamlString_wOK, andThen_ok, okRun_okRun]

theorem passthrough_handler_wOK (k v : String) (st : EmitState) :
    _passthrough_handler wOK k v st =
      okRun st [.scalarPlain k, .scalarQuoted v] [] := by
  simp [_passthrough_handler, emit1_wOK, okRun_okRun]

theorem g_datalist_foreach_wOK (pairs : List (String × String)) (st : EmitState) :
    g_datalist_foreach wOK pairs st = okRun st (specPassthroughEvents pairs) [] := by
  induction pairs generalizing st with
  | nil => simp [g_datalist_foreach, specPassthroughEvents, okRun_nil]
  | cons kv pairs ih =>
    have h1 : g_datalist_foreach wOK (kv :: pairs) st =
        g_datalist_foreach wOK pairs (_passthrough_handler wOK kv.1 kv.2 st) := rfl
    rw [h1, passthrough_handler_wOK, ih, okRun_okRun]
    simp [specPassthroughEvents]

theorem write_backend_settings_wOK (s : NetplanBackendSettings) (st : EmitState) :
    write_backend_settings wOK st s =
      (okRun st (specBackendSettingsEvents s) [], true) := by
  rcases s with ⟨u, n, pt⟩
  rcases u with _ | u <;> rcases n with _ | n <;> rcases pt with _ | ⟨kv, pt⟩ <;>
    simp [write_backend_settings, specBackendSettingsEvents, andThen_ok, emitSeq_wOK,
      g_datalist_foreach_wOK, okRun_okRun, okRun_nil, specOptString, andThen]

theorem write_ap_one_wOK (d : NetplanNetDefinition) (ap : NetplanWifiAccessPoint)
    (st : EmitState) :
    write_ap_one wOK d st ap =
      (okRun st (specApEvents ap) (specApWarnings d.id ap), true) := by
  by_cases hm : ap.mode = NetplanWifiMode.other <;>
    by_cases hh : ap.hidden <;>
      simp [write_ap_one, specApEvents, specApWarnings, hm, hh, andThen_ok, emitSeq_wOK,
        write_backend_settings_wOK, okRun_okRun, okRun_warnings, okRun_nil, bne_iff_ne]

theorem write_access_points_loop_wOK (d : NetplanNetDefinition)
    (aps : List NetplanWifiAccessPoint) (st : EmitState) :
    write_access_points_loop wOK d st aps =
      (okRun st (aps.map specApEvents).flatten
        ((aps.map (specApWarnings d.id)).flatten), true) := by
  induction aps generalizing st with
  | nil => simp [write_access_points_loop, okRun_nil]
  | cons ap aps ih =>
    rw [write_access_points_loop, write_ap_one_wOK]
    simp only [ih, okRun_okRun, List.map_cons, List.flatten_cons]

theorem write_access_points_wOK (d : NetplanNetDefinition) (st : EmitState) :
    write_access_points wOK st d =
      (okRun st (specAccessPointsEvents d) (specAccessPointsWarnings d), true) := by
  simp [write_access_points, specAccessPointsEvents, specAccessPointsWarnings,
    andThen_ok, emitSeq_wOK, write_access_points_loop_wOK, okRun_okRun]

theorem render_body_wOK (d : NetplanNetDefinition) :
    render_body wOK d = (okRun {} (specDocEvents d) (specDocWarnings d), true) := by
  cases htype : d.type <;>
    by_cases hM : d.has_match <;>
      by_cases hW : d.wake_on_lan <;>
        by_cases hA : d.modem_params.auto_config <;>
          simp [render_body, specDocEvents, specSkeletonEvents, specMatchEvents,
            specWolEvents, specModemEvents, specAccessPointsIfWifi, specDocWarnings,
            htype, hM, hW, hA, andThen_ok, emitSeq_wOK, yamlString_wOK, write_match_wOK,
            write_backend_settings_wOK, write_access_points_wOK, okRun_okRun, okRun_nil]

/-! ## Concrete definitions used as witnesses and counterexamples -/

/-- The fresh emitter state at the start of a render. -/
def st0 : EmitState := {}

/-- Backend settings holding only a two-entry passthrough mapping. -/
def ptSettings : NetplanBackendSettings := ⟨⟨none, none, [("k1", "v1"), ("k2", "v2")]⟩⟩

/-- Modem parameters with only the APN present. -/
def egModem : NetplanModemParams := ⟨false, some "internet", none, none, none, none, none⟩

/-- All-absent modem parameters. -/
def noModem : NetplanModemParams := ⟨false, none, none, none, none, none, none⟩

/-- Backend settings with UUID and name. -/
def egNM : NetplanBackendSettings := ⟨⟨some "abc-123", some "Home", []⟩⟩

/-- An ethernet definition with no backend-settings UUID but with an APN
set in its modem parameters. -/
def ethDef : NetplanNetDefinition :=
  ⟨"eth0", .ethernet, .NetworkManager, false, ⟨none⟩, false, egModem, [], ⟨⟨none, none, []⟩⟩⟩

/-- A definition of device type `other` with backend settings. -/
def otherDef : NetplanNetDefinition :=
  ⟨"nm-dev", .other, .NetworkManager, false, ⟨none⟩, false, noModem, [], egNM⟩

/-- An access point whose wireless mode is the unsupported sentinel. -/
def apOther : NetplanWifiAccessPoint := ⟨"myssid", false, .other, ⟨⟨none, none, []⟩⟩⟩

/-- A wifi definition with a match, wake-on-lan, and one
unsupported-mode access point. -/
def wifiDef : NetplanNetDefinition :=
  ⟨"wl0", .wifi, .NetworkManager, true, ⟨some "wlan0"⟩, true, noModem, [apOther], egNM⟩

/-! ## Claims -/

/-- Claim C1 (code bug): the claim states that a failed write during
passthrough emission aborts the emission (no further pairs written) and
propagates as a failure.  The code cannot do this: `_passthrough_handler`
is a `void` GLib callback whose `error:` label merely returns, and
`g_datalist_foreach` has no early exit.  Concretely, with a writer that
fails exactly on the write of the first pair's key, the first pair is
silently dropped, the second pair is still written, and
`write_backend_settings` returns success. -/
theorem claim_C1_passthrough_failure_swallowed :
    (write_backend_settings (wFailAt 4) st0 ptSettings).2 = true ∧
    YamlEvent.scalarPlain "k2" ∈ (write_backend_settings (wFailAt 4) st0 ptSettings).1.out ∧
    YamlEvent.scalarQuoted "v2" ∈ (write_backend_settings (wFailAt 4) st0 ptSettings).1.out ∧
    YamlEvent.scalarPlain "k1" ∉ (write_backend_settings (wFailAt 4) st0 ptSettings).1.out ∧
    YamlEvent.scalarQuoted "v1" ∉ (write_backend_settings (wFailAt 4) st0 ptSettings).1.out := by
  decide

/-- Claim C2 (code bug): the claim states that the render returns a
success-or-IoFailure outcome and that open/write failures surface to the
caller.  `write_netplan_conf` is `void` and never inspects the result of
`fopen`: the render proceeds identically whether or not the output could
be opened, so no `IoFailure` can ever be produced or surfaced. -/
theorem claim_C2_open_failure_ignored (w : YamlWriter) (d : NetplanNetDefinition)
    (rootdir : Option String) :
    write_netplan_conf w false d rootdir =
      { write_netplan_conf w true d rootdir with openOk := false } := by
  rcases h : render_body w d with ⟨stF, b⟩
  cases b <;> simp [write_netplan_conf, h]

/-- Claim C3 (confirmed): the Backend-Settings Emitter emits nothing
exactly when UUID, name and passthrough are all absent/empty; otherwise
it emits one `networkmanager` mapping containing uuid (plain), name
(quoted) and the non-empty passthrough mapping in that fixed order, and
closes it (`specBackendSettingsEvents` spells out this shape from the
spec's words). -/
theorem claim_C3_backend_settings_shape (s : NetplanBackendSettings) (st : EmitState) :
    write_backend_settings wOK st s = (okRun st (specBackendSettingsEvents s) [], true) ∧
    (specBackendSettingsEvents s = [] ↔
      s.nm.uuid = none ∧ s.nm.name = none ∧ s.nm.passthrough = []) := by
  refine ⟨write_backend_settings_wOK s st, ?_⟩
  rcases s with ⟨u, n, pt⟩
  by_cases h : u = none ∧ n = none ∧ pt = [] <;> simp [specBackendSettingsEvents, h]

theorem g_build_path_etc (r f : String) (hr : r ≠ "") (hf : f ≠ "") :
    g_build_path [r, "etc", "netplan", f] = r ++ "/etc/netplan/" ++ f := by
  have h1 : ("/etc/netplan" : String) ++ "/" = "/etc/netplan/" := by decide
  simp [g_build_path, List.filter, hr, hf, String.append_assoc]
  rw [← h1, String.append_assoc]

theorem g_build_path_etc_none (f : String) (hf : f ≠ "") :
    g_build_path ["", "etc", "netplan", f] = "etc/netplan/" ++ f := by
  have h1 : ("etc/netplan" : String) ++ "/" = "etc/netplan/" := by decide
  simp [g_build_path, List.filter, hf, String.append_assoc]
  rw [← h1, String.append_assoc]

theorem filename_ne_empty (d : NetplanNetDefinition) :
    (match d.backend_settings.nm.uuid with
      | some u => "90-NM-" ++ u ++ ".yaml"
      | none => "10-netplan-" ++ d.id ++ ".yaml") ≠ "" := by
  rcases h : d.backend_settings.nm.uuid with _ | u <;>
    · intro hc
      have := congrArg String.length hc
      simp [String.length_append] at this
      exact absurd this.1.1 (by decide)

/-- Claim C4 (corrected), counterexample: for a definition with no UUID
and identifier `eth0` rendered with no root directory, the code computes
the relative path `etc/netplan/10-netplan-eth0.yaml` (GLib's
`g_build_path` ignores the empty element that stands in for the missing
root), not the system-root path `/etc/netplan/10-netplan-eth0.yaml` the
claim states. -/
theorem claim_C4_counterexample :
    (write_netplan_conf wOK true ethDef none).path = "etc/netplan/10-netplan-eth0.yaml" ∧
    (write_netplan_conf wOK true ethDef none).path ≠ "/etc/netplan/10-netplan-eth0.yaml" := by
  decide

/-- Claim C4 (amended): the filename is `90-NM-<uuid>.yaml` exactly when
the backend-settings UUID is present and `10-netplan-<id>.yaml`
otherwise; the path is `<rootDirectory>/etc/netplan/<filename>` when a
non-empty root directory (without trailing separator) is given, and the
relative path `etc/netplan/<filename>` when it is absent — the system
root is not prefixed. -/
theorem claim_C4_path_selection (d : NetplanNetDefinition) (w : YamlWriter) (o : Bool)
    (r : String) (hr : r ≠ "") (_hsep : r.data.getLast? ≠ some '/') :
    (write_netplan_conf w o d (some r)).path =
      r ++ "/etc/netplan/" ++ (write_netplan_conf w o d (some r)).filename ∧
    (write_netplan_conf w o d none).path =
      "etc/netplan/" ++ (write_netplan_conf w o d none).filename ∧
    (write_netplan_conf w o d none).filename =
      (match d.backend_settings.nm.uuid with
        | some u => "90-NM-" ++ u ++ ".yaml"
        | none => "10-netplan-" ++ d.id ++ ".yaml") := by
  have hf := filename_ne_empty d
  rcases hb : render_body w d with ⟨stF, b⟩
  cases b <;>
    simp [write_netplan_conf, hb, g_build_path_etc r _ hr hf, g_build_path_etc_none _ hf]

/-- Witness for claim C4's amended theorem at a concrete definition and
root directory. -/
theorem claim_C4_path_selection_witness :
    (write_netplan_conf wOK true ethDef (some "/rd")).path =
      "/rd" ++ "/etc/netplan/" ++ (write_netplan_conf wOK true ethDef (some "/rd")).filename ∧
    (write_netplan_conf wOK true ethDef none).path =
      "etc/netplan/" ++ (write_netplan_conf wOK true ethDef none).filename ∧
    (write_netplan_conf wOK true ethDef none).filename =
      (match ethDef.backend_settings.nm.uuid with
        | some u => "90-NM-" ++ u ++ ".yaml"
        | none => "10-netplan-" ++ ethDef.id ++ ".yaml") :=
  claim_C4_path_selection ethDef wOK true "/rd" (by decide) (by decide)

/-- Claim C5 (confirmed): for a definition of device type `other` the
rendered document is exactly the top-level skeleton, the (possibly
empty) `networkmanager` backend-settings mapping, the three mapping
closes and the stream finalization — no match, wake-on-lan, modem or
access-point output ever appears. -/
theorem claim_C5_other_type_skeleton_only (d : NetplanNetDefinition) (rootdir : Option String)
    (h : d.type = NetplanDefType.other) :
    (write_netplan_conf wOK true d rootdir).st.out =
      specSkeletonEvents d ++ specBackendSettingsEvents d.backend_settings
      ++ [YamlEvent.mappingClose, YamlEvent.mappingClose, YamlEvent.mappingClose,
          YamlEvent.outStop] := by
  have hb := render_body_wOK d
  simp [write_netplan_conf, hb, okRun, specDocEvents, h]

/-- Witness for claim C5 at a concrete `other`-type definition. -/
theorem claim_C5_other_type_skeleton_only_witness :
    (write_netplan_conf wOK true otherDef none).st.out =
      specSkeletonEvents otherDef ++ specBackendSettingsEvents otherDef.backend_settings
      ++ [YamlEvent.mappingClose, YamlEvent.mappingClose, YamlEvent.mappingClose,
          YamlEvent.outStop] :=
  claim_C5_other_type_skeleton_only otherDef none rfl

/-- Claim C6 (confirmed): for a definition whose device type is not
`other`, the definition-specific fields follow the skeleton in the fixed
order match → wake-on-lan → modem parameters → access points (wifi
only) → backend settings, and the three opened mappings are then closed
before the stream finalization. -/
theorem claim_C6_field_order (d : NetplanNetDefinition) (rootdir : Option String)
    (h : d.type ≠ NetplanDefType.other) :
    (write_netplan_conf wOK true d rootdir).st.out =
      specSkeletonEvents d ++ specMatchEvents d ++ specWolEvents d
      ++ specModemEvents d.modem_params ++ specAccessPointsIfWifi d
      ++ specBackendSettingsEvents d.backend_settings
      ++ [YamlEvent.mappingClose, YamlEvent.mappingClose, YamlEvent.mappingClose,
          YamlEvent.outStop] := by
  have hb := render_body_wOK d
  simp [write_netplan_conf, hb, okRun, specDocEvents, h]

/-- Witness for claim C6 at a concrete wifi definition with match,
wake-on-lan and one access point. -/
theorem claim_C6_field_order_witness :
    (write_netplan_conf wOK true wifiDef none).st.out =
      specSkeletonEvents wifiDef ++ specMatchEvents wifiDef ++ specWolEvents wifiDef
      ++ specModemEvents wifiDef.modem_params ++ specAccessPointsIfWifi wifiDef
      ++ specBackendSettingsEvents wifiDef.backend_settings
      ++ [YamlEvent.mappingClose, YamlEvent.mappingClose, YamlEvent.mappingClose,
          YamlEvent.outStop] :=
  claim_C6_field_order wifiDef none (by decide)

/-- Claim C7 (confirmed): for a non-empty passthrough mapping, the
emission succeeds and the rendered `passthrough` block contains exactly
one plain-scalar key and one quoted-scalar value per pair of the
mapping, in iteration order — no pair dropped, renamed or duplicated
(the statement quantifies over every iteration order of the mapping). -/
theorem claim_C7_passthrough_verbatim (s : NetplanBackendSettings) (st : EmitState)
    (h : s.nm.passthrough ≠ []) :
    (write_backend_settings wOK st s).2 = true ∧
    (write_backend_settings wOK st s).1.out =
      st.out ++ [YamlEvent.scalarPlain "networkmanager", YamlEvent.mappingOpen]
      ++ (match s.nm.uuid with
          | some u => [YamlEvent.scalarPlain "uuid", YamlEvent.scalarPlain u]
          | none => [])
      ++ specOptString "name" s.nm.name
      ++ [YamlEvent.scalarPlain "passthrough", YamlEvent.mappingOpen]
      ++ (s.nm.passthrough.map
          (fun kv => [YamlEvent.scalarPlain kv.1, YamlEvent.scalarQuoted kv.2])).flatten
      ++ [YamlEvent.mappingClose, YamlEvent.mappingClose] := by
  rw [write_backend_settings_wOK]
  refine ⟨rfl, ?_⟩
  simp [okRun, specBackendSettingsEvents, specPassthroughEvents, h]

/-- Witness for claim C7 at the concrete two-pair passthrough mapping. -/
theorem claim_C7_passthrough_verbatim_witness :
    (write_backend_settings wOK st0 ptSettings).2 = true ∧
    (write_backend_settings wOK st0 ptSettings).1.out =
      st0.out ++ [YamlEvent.scalarPlain "networkmanager", YamlEvent.mappingOpen]
      ++ (match ptSettings.nm.uuid with
          | some u => [YamlEvent.scalarPlain "uuid", YamlEvent.scalarPlain u]
          | none => [])
      ++ specOptString "name" ptSettings.nm.name
      ++ [YamlEvent.scalarPlain "passthrough", YamlEvent.mappingOpen]
      ++ (ptSettings.nm.passthrough.map
          (fun kv => [YamlEvent.scalarPlain kv.1, YamlEvent.scalarQuoted kv.2])).flatten
      ++ [YamlEvent.mappingClose, YamlEvent.mappingClose] :=
  claim_C7_passthrough_verbatim ptSettings st0 (by decide)

theorem specApWarnings_flatten (id : String) (aps : List NetplanWifiAccessPoint) :
    (aps.map (specApWarnings id)).flatten =
      (aps.filter (fun ap => ap.mode = NetplanWifiMode.other)).map
        (fun ap => ap_warning id ap.ssid) := by
  induction aps with
  | nil => simp
  | cons ap aps ih =>
    by_cases hm : ap.mode = NetplanWifiMode.other <;>
      simp [specApWarnings, List.filter_cons, hm, ih]

/-- Claim C8 (confirmed): the access-point emitter always succeeds (the
render continues rather than aborting), its output renders an
unsupported-mode access point with the fallback `mode: infrastructure`
(never the unsupported variant itself, whose canonical string is never
consulted), and its diagnostics are exactly one warning per
unsupported-mode access point. -/
theorem claim_C8_unsupported_mode_fallback (d : NetplanNetDefinition) (st : EmitState) :
    (write_access_points wOK st d).2 = true ∧
    (write_access_points wOK st d).1.out = st.out ++ specAccessPointsEvents d ∧
    (write_access_points wOK st d).1.warnings = st.warnings ++
      (d.access_points.filter (fun ap => ap.mode = NetplanWifiMode.other)).map
        (fun ap => ap_warning d.id ap.ssid) ∧
    ∀ ap : NetplanWifiAccessPoint, ap.mode = NetplanWifiMode.other →
      specApEvents ap = [YamlEvent.scalarQuoted ap.ssid, YamlEvent.mappingOpen]
        ++ (if ap.hidden then [YamlEvent.scalarPlain "hidden", YamlEvent.scalarPlain "true"]
            else [])
        ++ [YamlEvent.scalarPlain "mode", YamlEvent.scalarPlain "infrastructure"]
        ++ specBackendSettingsEvents ap.backend_settings ++ [YamlEvent.mappingClose] := by
  rw [write_access_points_wOK]
  refine ⟨rfl, by simp [okRun], ?_, ?_⟩
  · simp [okRun, specAccessPointsWarnings, specApWarnings_flatten]
  · intro ap hm
    simp [specApEvents, hm]

/-- Witness for claim C8's unsupported-mode conjunct at the concrete
access point `apOther`. -/
theorem claim_C8_unsupported_mode_fallback_witness :
    specApEvents apOther = [YamlEvent.scalarQuoted apOther.ssid, YamlEvent.mappingOpen]
      ++ (if apOther.hidden then [YamlEvent.scalarPlain "hidden", YamlEvent.scalarPlain "true"]
          else [])
      ++ [YamlEvent.scalarPlain "mode", YamlEvent.scalarPlain "infrastructure"]
      ++ specBackendSettingsEvents apOther.backend_settings ++ [YamlEvent.mappingClose] :=
  (claim_C8_unsupported_mode_fallback wifiDef st0).2.2.2 apOther rfl

/-- Claim C9 (corrected), counterexample: the claim states that modem-
parameter keys appear only for modem-type definitions.  The code emits
them unguarded for every non-`other` type: the concrete ethernet
definition `ethDef` has its APN set, and the key `apn` appears in its
rendered document. -/
theorem claim_C9_counterexample :
    ethDef.type = NetplanDefType.ethernet ∧
    ethDef.modem_params.apn = some "internet" ∧
    YamlEvent.scalarPlain "apn" ∈ (write_netplan_conf wOK true ethDef none).st.out := by
  decide

/-- Claim C9 (amended): modem-parameter keys are emitted for every
definition whose device type is not `other`, each exactly when its field
is present (within `specModemEvents`), regardless of the device type;
in particular `apn` appears in the rendered document of any non-`other`
definition whose APN is set.  Only `other`-type definitions never emit
them (their document is covered by claim C5). -/
theorem claim_C9_modem_keys_unguarded (d : NetplanNetDefinition) (rootdir : Option String)
    (h : d.type ≠ NetplanDefType.other) :
    (write_netplan_conf wOK true d rootdir).st.out =
      specSkeletonEvents d ++ specMatchEvents d ++ specWolEvents d
      ++ specModemEvents d.modem_params ++ specAccessPointsIfWifi d
      ++ specBackendSettingsEvents d.backend_settings
      ++ [YamlEvent.mappingClose, YamlEvent.mappingClose, YamlEvent.mappingClose,
          YamlEvent.outStop] ∧
    ∀ x : String, d.modem_params.apn = some x →
      YamlEvent.scalarPlain "apn" ∈ (write_netplan_conf wOK true d rootdir).st.out := by
  have hb := render_body_wOK d
  have hout : (write_netplan_conf wOK true d rootdir).st.out =
      specSkeletonEvents d ++ specMatchEvents d ++ specWolEvents d
      ++ specModemEvents d.modem_params ++ specAccessPointsIfWifi d
      ++ specBackendSettingsEvents d.backend_settings
      ++ [YamlEvent.mappingClose, YamlEvent.mappingClose, YamlEvent.mappingClose,
          YamlEvent.outStop] := by
    simp [write_netplan_conf, hb, okRun, specDocEvents, h]
  refine ⟨hout, ?_⟩
  intro x hx
  rw [hout]
  simp [specModemEvents, specOptString, hx, List.mem_append]

/-- Witness for claim C9's amended theorem at the concrete ethernet
definition with APN set. -/
theorem claim_C9_modem_keys_unguarded_witness :
    (write_netplan_conf wOK true ethDef none).st.out =
      specSkeletonEvents ethDef ++ specMatchEvents ethDef ++ specWolEvents ethDef
      ++ specModemEvents ethDef.modem_params ++ specAccessPointsIfWifi ethDef
      ++ specBackendSettingsEvents ethDef.backend_settings
      ++ [YamlEvent.mappingClose, YamlEvent.mappingClose, YamlEvent.mappingClose,
          YamlEvent.outStop] ∧
    ∀ x : String, ethDef.modem_params.apn = some x →
      YamlEvent.scalarPlain "apn" ∈ (write_netplan_conf wOK true ethDef none).st.out :=
  claim_C9_modem_keys_unguarded ethDef none (by decide)

/-- Claim C10 (confirmed): the output file handle is released on every
exit path of the render — both the normal path (netplan.c:183) and the
`error:` abort path (netplan.c:189) call `fclose` — for every writer,
every open outcome, every definition and every root directory. -/
theorem claim_C10_fclose_every_path (w : YamlWriter) (openOk : Bool)
    (d : NetplanNetDefinition) (rootdir : Option String) :
    (write_netplan_conf w openOk d rootdir).fcloseCalled = true := by
  rcases h : render_body w d with ⟨stF, b⟩
  cases b <;> simp [write_netplan_conf, h]
